import Mathlib

/-!
# Desktop media picker dialog

A shallow embedding of `desktop_media_picker_views.cc`: the picker dialog
(`DesktopMediaPickerDialogView`) and its session owner
(`DesktopMediaPickerViews`).

* C++ objects become structures; a method becomes a function taking the object
  (or the whole `World` when it reaches across objects) and returning the new one.
* A crash (failed `DCHECK`, `NOTREACHED()`, reading past a vector, `value()` on an
  empty `base::Optional`, a call through a null or dangling pointer) is a `Fault`.
* Calls that leave the file (picker manager, task posting) are recorded in the
  `World` in the order they happen.
-/

namespace Cef

/-! ## Data model -/

/-- Values of `content::DesktopMediaID::Type`. -/
inductive DesktopMediaIDType where
  | TYPE_NONE
  | TYPE_SCREEN
  | TYPE_WINDOW
  | TYPE_WEB_CONTENTS
  deriving DecidableEq, Repr

open DesktopMediaIDType

/-- Modelled from the spec: `content::DesktopMediaID` is declared outside the source
file. The spec's `SourceSelection` is a category, a platform source identifier and
an include-audio flag; the source reads and writes `type`, `id` and `audio_share`. -/
structure DesktopMediaID where
  type : DesktopMediaIDType
  id : Int
  audio_share : Bool
  deriving DecidableEq, Repr

/-- The value of `DesktopMediaID()`: the empty selection. -/
def DesktopMediaID.null : DesktopMediaID :=
  { type := .TYPE_NONE, id := 0, audio_share := false }

/-- Ways in which a call can crash instead of returning. -/
inductive Fault where
  | notreached
  | dcheck_failed
  | out_of_range
  | bad_optional_access
  | null_dereference
  | use_after_free
  deriving DecidableEq, Repr

/-- Compile-time switches the source tests with the preprocessor, and whether
`DCHECK` / `NOTREACHED` are compiled in. -/
structure BuildConfig where
  USE_CRAS : Bool
  OS_WIN : Bool
  DCHECK_IS_ON : Bool
  deriving DecidableEq, Repr

/-- `NOTREACHED()`: a crash when checks are compiled in, nothing otherwise. -/
def NOTREACHED (cfg : BuildConfig) : Except Fault Unit :=
  if cfg.DCHECK_IS_ON then throw Fault.notreached else pure ()

/-- `DCHECK(cond)`. -/
def DCHECK (cfg : BuildConfig) (cond : Bool) : Except Fault Unit :=
  if cfg.DCHECK_IS_ON && !cond then throw Fault.dcheck_failed else pure ()

/-- Values of `ui::DialogButton`. -/
inductive DialogButton where
  | DIALOG_BUTTON_NONE
  | DIALOG_BUTTON_OK
  | DIALOG_BUTTON_CANCEL
  deriving DecidableEq, Repr

/-- Values of `ui::ModalType`. -/
inductive ModalType where
  | MODAL_TYPE_NONE
  | MODAL_TYPE_WINDOW
  | MODAL_TYPE_CHILD
  | MODAL_TYPE_SYSTEM
  deriving DecidableEq, Repr

/-- The fields of `DesktopMediaPicker::Params` the constructor reads. -/
structure Params where
  modality : ModalType
  app_name : String
  target_name : String
  request_audio : Bool
  deriving DecidableEq, Repr

/-- The two tab titles the constructor looks up. -/
inductive TabTitle where
  | IDS_DESKTOP_MEDIA_PICKER_SOURCE_TYPE_SCREEN
  | IDS_DESKTOP_MEDIA_PICKER_SOURCE_TYPE_WINDOW
  deriving DecidableEq, Repr

/-- The two description texts the constructor chooses between. -/
inductive DescriptionText where
  | unset
  | IDS_DESKTOP_MEDIA_PICKER_TEXT (app_name : String)
  | IDS_DESKTOP_MEDIA_PICKER_TEXT_DELEGATED (app_name target_name : String)
  deriving DecidableEq, Repr

/-- A `views::Checkbox`, as far as the dialog uses it. -/
structure Checkbox where
  visible : Bool
  checked : Bool
  deriving DecidableEq, Repr

/-- A `DesktopMediaList`: its category (`GetMediaListType()`) and its sources. -/
structure DesktopMediaList where
  media_list_type : DesktopMediaIDType
  sources : List DesktopMediaID
  deriving DecidableEq, Repr

/-- Modelled from the spec: `DesktopMediaListController` is declared outside the
source file. It adapts one source list, reports the current selection
(`GetSelection()`), is started with the window id to leave out
(`StartUpdating`) and can be asked to focus its view (`FocusView`). -/
structure DesktopMediaListController where
  media_list : DesktopMediaList
  selection : Option DesktopMediaID
  updating : Option DesktopMediaID
  focus_view_calls : Nat
  deriving DecidableEq, Repr

/-- The controller built by `std::make_unique<DesktopMediaListController>(this, list)`. -/
def DesktopMediaListController.make (source_list : DesktopMediaList) :
    DesktopMediaListController :=
  { media_list := source_list, selection := none, updating := none, focus_view_calls := 0 }

/-- The result of `GetSelection()`. -/
def DesktopMediaListController.GetSelection (c : DesktopMediaListController) :
    Option DesktopMediaID :=
  c.selection

/-- The effect of `FocusView()`. -/
def DesktopMediaListController.FocusView (c : DesktopMediaListController) :
    DesktopMediaListController :=
  { c with focus_view_calls := c.focus_view_calls + 1 }

/-- The effect of `StartUpdating(dialog_window_id)`. -/
def DesktopMediaListController.StartUpdating (c : DesktopMediaListController)
    (dialog_window_id : DesktopMediaID) : DesktopMediaListController :=
  { c with updating := some dialog_window_id }

/-- Modelled from the spec: `views::TabbedPane` belongs to the windowing toolkit.
It holds the tabs in order, the active tab (none while there is no tab) and
whether a listener is registered. -/
structure TabbedPane where
  tabs : List TabTitle
  selected_tab_index : Option Nat
  has_listener : Bool
  deriving DecidableEq, Repr

/-- The pane made by `new views::TabbedPane()`. -/
def TabbedPane.make : TabbedPane :=
  { tabs := [], selected_tab_index := none, has_listener := false }

/-- Modelled from the spec: `AddTab` appends a tab; the first tab added becomes the
active one ("Select tab 0 as active"). -/
def TabbedPane.AddTab (pane : TabbedPane) (title : TabTitle) : TabbedPane :=
  { pane with
    tabs := pane.tabs ++ [title]
    selected_tab_index :=
      match pane.selected_tab_index with
      | none => some pane.tabs.length
      | some i => some i }

/-- The effect of `set_listener(this)`. -/
def TabbedPane.set_listener (pane : TabbedPane) : TabbedPane :=
  { pane with has_listener := true }

/-- The state of one `DesktopMediaPickerDialogView`. `parent_` is true while the
back-pointer to the session owner is non-null; `widget_closed` records that
`Widget::Close()` was requested; `dialog_model_changed` counts the calls of
`DialogModelChanged()`. -/
structure DesktopMediaPickerDialogView where
  parent_ : Bool
  modality_ : ModalType
  description_label_ : DescriptionText
  audio_share_checkbox_ : Option Checkbox
  pane_ : TabbedPane
  source_types_ : List DesktopMediaIDType
  list_controllers_ : List DesktopMediaListController
  accepted_source_ : Option DesktopMediaID
  dialog_model_changed : Nat
  widget_closed : Bool
  deriving DecidableEq, Repr

/-- A `DoneCallback` that is not null, named by a number. -/
abbrev DoneCallback := Nat

/-- The state of one `DesktopMediaPickerViews`: `dialog_` is the address of the
dialog or null, `callback_` the stored callback or null. -/
structure DesktopMediaPickerViews where
  dialog_ : Option Nat
  callback_ : Option DoneCallback
  deriving DecidableEq, Repr

/-- Calls received by `DesktopMediaPickerManager::Get()`. -/
inductive ManagerCall where
  | OnShowDialog
  | OnHideDialog
  deriving DecidableEq, Repr

/-- Everything the file touches: the session owner (none once destroyed), the
dialogs by address (none where nothing lives), the next free address, the calls
made on the picker manager, the tasks posted to the UI thread (callback and
argument) and the arguments of the calls of `NotifyDialogResult`, all in order. -/
structure World where
  picker : Option DesktopMediaPickerViews
  dialogs : Nat → Option DesktopMediaPickerDialogView
  next_dialog : Nat
  manager_calls : List ManagerCall
  posted_tasks : List (DoneCallback × DesktopMediaID)
  notify_calls : List DesktopMediaID

/-- Store `v` at address `p`. -/
def World.setDialog (w : World) (p : Nat) (v : Option DesktopMediaPickerDialogView) : World :=
  { w with dialogs := fun q => if q = p then v else w.dialogs q }

/-- The world right after `DesktopMediaPickerViews()`: an owner with no dialog and no
callback, nothing else. -/
def World.init : World :=
  { picker := some { dialog_ := none, callback_ := none }
    dialogs := fun _ => none
    next_dialog := 0
    manager_calls := []
    posted_tasks := []
    notify_calls := [] }

/-! ## The dialog -/

/-- The dialog before the constructor body runs: the member initialisers. -/
def DesktopMediaPickerDialogView.initial (params : Params) : DesktopMediaPickerDialogView :=
  { parent_ := true
    modality_ := params.modality
    description_label_ := .unset
    audio_share_checkbox_ := none
    pane_ := TabbedPane.make
    source_types_ := []
    list_controllers_ := []
    accepted_source_ := none
    dialog_model_changed := 0
    widget_closed := false }

/-- One turn of the constructor's loop over `source_lists`: the `switch` on
`GetMediaListType()`. -/
def DesktopMediaPickerDialogView.addSourceList (cfg : BuildConfig)
    (d : DesktopMediaPickerDialogView) (source_list : DesktopMediaList) :
    Except Fault DesktopMediaPickerDialogView :=
  match source_list.media_list_type with
  | .TYPE_NONE => do
    NOTREACHED cfg
    pure d
  | .TYPE_SCREEN =>
    pure { d with
      source_types_ := d.source_types_ ++ [.TYPE_SCREEN]
      list_controllers_ := d.list_controllers_ ++ [DesktopMediaListController.make source_list]
      pane_ := (d.pane_.AddTab .IDS_DESKTOP_MEDIA_PICKER_SOURCE_TYPE_SCREEN).set_listener }
  | .TYPE_WINDOW =>
    pure { d with
      source_types_ := d.source_types_ ++ [.TYPE_WINDOW]
      list_controllers_ := d.list_controllers_ ++ [DesktopMediaListController.make source_list]
      pane_ := (d.pane_.AddTab .IDS_DESKTOP_MEDIA_PICKER_SOURCE_TYPE_WINDOW).set_listener }
  | .TYPE_WEB_CONTENTS => pure d

/-- The constructor's loop `for (auto& source_list : source_lists)`. -/
def DesktopMediaPickerDialogView.addSourceLists (cfg : BuildConfig) :
    DesktopMediaPickerDialogView → List DesktopMediaList →
      Except Fault DesktopMediaPickerDialogView
  | d, [] => pure d
  | d, source_list :: rest =>
    match DesktopMediaPickerDialogView.addSourceList cfg d source_list with
    | .error e => .error e
    | .ok d1 => DesktopMediaPickerDialogView.addSourceLists cfg d1 rest

/-- `OnSourceTypeSwitched(index)`: set the checkbox's visibility from the category
of tab `index`. -/
def DesktopMediaPickerDialogView.OnSourceTypeSwitched (cfg : BuildConfig)
    (d : DesktopMediaPickerDialogView) (index : Nat) :
    Except Fault DesktopMediaPickerDialogView :=
  match d.audio_share_checkbox_ with
  | none => pure d
  | some cb =>
    match d.source_types_[index]? with
    | none => throw Fault.out_of_range
    | some .TYPE_SCREEN =>
      pure { d with audio_share_checkbox_ := some { cb with visible := cfg.USE_CRAS || cfg.OS_WIN } }
    | some .TYPE_WINDOW =>
      pure { d with audio_share_checkbox_ := some { cb with visible := false } }
    | some .TYPE_WEB_CONTENTS =>
      pure { d with audio_share_checkbox_ := some { cb with visible := true } }
    | some .TYPE_NONE => do
      NOTREACHED cfg
      pure d

/-- `DialogModelChanged()`: ask the toolkit to re-read the buttons. -/
def DesktopMediaPickerDialogView.DialogModelChanged (d : DesktopMediaPickerDialogView) :
    DesktopMediaPickerDialogView :=
  { d with dialog_model_changed := d.dialog_model_changed + 1 }

/-- `TabSelectedAt(index)`. -/
def DesktopMediaPickerDialogView.TabSelectedAt (cfg : BuildConfig)
    (d : DesktopMediaPickerDialogView) (index : Nat) :
    Except Fault DesktopMediaPickerDialogView :=
  match DesktopMediaPickerDialogView.OnSourceTypeSwitched cfg d index with
  | .error e => .error e
  | .ok d1 =>
    match d1.list_controllers_[index]? with
    | none => throw Fault.out_of_range
    | some c =>
      pure ({ d1 with list_controllers_ := d1.list_controllers_.set index c.FocusView }).DialogModelChanged

/-- `GetSelectedController()`: `list_controllers_[pane_->GetSelectedTabIndex()]`. -/
def DesktopMediaPickerDialogView.GetSelectedController (d : DesktopMediaPickerDialogView) :
    Except Fault DesktopMediaListController :=
  match d.pane_.selected_tab_index with
  | none => throw Fault.out_of_range
  | some i =>
    match d.list_controllers_[i]? with
    | none => throw Fault.out_of_range
    | some c => pure c

/-- `DetachParent()`. -/
def DesktopMediaPickerDialogView.DetachParent (d : DesktopMediaPickerDialogView) :
    DesktopMediaPickerDialogView :=
  { d with parent_ := false }

/-- `IsDialogButtonEnabled(button)`. -/
def DesktopMediaPickerDialogView.IsDialogButtonEnabled (d : DesktopMediaPickerDialogView)
    (button : DialogButton) : Except Fault Bool :=
  if button ≠ .DIALOG_BUTTON_OK then pure true
  else
    match d.GetSelectedController with
    | .error e => .error e
    | .ok c => pure c.GetSelection.isSome

/-- `OnSelectionChanged()`. -/
def DesktopMediaPickerDialogView.OnSelectionChanged (d : DesktopMediaPickerDialogView) :
    DesktopMediaPickerDialogView :=
  d.DialogModelChanged

/-- Modelled from the spec: `TabbedPane::SelectTabAt(i)` belongs to the toolkit. It makes
tab `i` the active one and tells the listener (`TabSelectedAt(i)`); this is also
what a click on tab `i` does. -/
def DesktopMediaPickerDialogView.pane_SelectTabAt (cfg : BuildConfig)
    (d : DesktopMediaPickerDialogView) (i : Nat) :
    Except Fault DesktopMediaPickerDialogView :=
  if i < d.pane_.tabs.length then
    let d1 := { d with pane_ := { d.pane_ with selected_tab_index := some i } }
    if d1.pane_.has_listener then DesktopMediaPickerDialogView.TabSelectedAt cfg d1 i
    else pure d1
  else throw Fault.out_of_range

/-- The loop of `SelectTab`: `rest` is `source_types_` from position `i` on. -/
def DesktopMediaPickerDialogView.SelectTab_loop (cfg : BuildConfig)
    (d : DesktopMediaPickerDialogView) (source_type : DesktopMediaIDType) :
    List DesktopMediaIDType → Nat → Except Fault DesktopMediaPickerDialogView
  | [], _ => pure d
  | t :: rest, i =>
    if t = source_type then DesktopMediaPickerDialogView.pane_SelectTabAt cfg d i
    else DesktopMediaPickerDialogView.SelectTab_loop cfg d source_type rest (i + 1)

/-- `SelectTab(source_type)`. -/
def DesktopMediaPickerDialogView.SelectTab (cfg : BuildConfig)
    (d : DesktopMediaPickerDialogView) (source_type : DesktopMediaIDType) :
    Except Fault DesktopMediaPickerDialogView :=
  DesktopMediaPickerDialogView.SelectTab_loop cfg d source_type d.source_types_ 0

/-- The constructor `DesktopMediaPickerDialogView(params, parent, source_lists)`;
`dialog_window_id` is the id the platform gives the dialog's own window. -/
def DesktopMediaPickerDialogView.create (cfg : BuildConfig) (params : Params)
    (source_lists : List DesktopMediaList) (dialog_window_id : DesktopMediaID) :
    Except Fault DesktopMediaPickerDialogView :=
  match DesktopMediaPickerDialogView.addSourceLists cfg
      (DesktopMediaPickerDialogView.initial params) source_lists with
  | .error e => .error e
  | .ok d1 =>
    let d2 := { d1 with
      description_label_ :=
        if params.app_name = params.target_name then
          .IDS_DESKTOP_MEDIA_PICKER_TEXT params.app_name
        else .IDS_DESKTOP_MEDIA_PICKER_TEXT_DELEGATED params.app_name params.target_name }
    match DCHECK cfg (!d2.source_types_.isEmpty) with
    | .error e => .error e
    | .ok _ =>
      let d3 :=
        if params.request_audio then
          { d2 with audio_share_checkbox_ := some { visible := true, checked := true } }
        else d2
      match DesktopMediaPickerDialogView.OnSourceTypeSwitched cfg d3 0 with
      | .error e => .error e
      | .ok d4 =>
        pure { d4 with
          list_controllers_ := d4.list_controllers_.map (fun c => c.StartUpdating dialog_window_id) }

/-- The value `Accept()` puts in `source.audio_share`. -/
def DesktopMediaPickerDialogView.audio_share (d : DesktopMediaPickerDialogView) : Bool :=
  match d.audio_share_checkbox_ with
  | none => false
  | some cb => cb.visible && cb.checked

/-- The `source_optional` of `Accept()`: the forced source if set, otherwise what the
active tab's controller reports. -/
def DesktopMediaPickerDialogView.source_optional (d : DesktopMediaPickerDialogView) :
    Except Fault (Option DesktopMediaID) :=
  if d.accepted_source_.isSome then pure d.accepted_source_
  else
    match d.GetSelectedController with
    | .error e => .error e
    | .ok c => pure c.GetSelection

/-! ## The session owner, and the dialog methods that call it -/

/-- `DesktopMediaPickerViews::NotifyDialogResult(source)`. -/
def DesktopMediaPickerViews.NotifyDialogResult (w : World) (source : DesktopMediaID) :
    Except Fault World :=
  match w.picker with
  | none => throw Fault.use_after_free
  | some pk =>
    match pk.dialog_ with
    | none => throw Fault.null_dereference
    | some p =>
      match w.dialogs p with
      | none => throw Fault.use_after_free
      | some d =>
        let w1 := { w.setDialog p (some d.DetachParent) with
          notify_calls := w.notify_calls ++ [source]
          manager_calls := w.manager_calls ++ [ManagerCall.OnHideDialog] }
        match pk.callback_ with
        | none => pure { w1 with picker := some { pk with dialog_ := none } }
        | some cb =>
          pure { w1 with
            picker := some { dialog_ := none, callback_ := none }
            posted_tasks := w.posted_tasks ++ [(cb, source)] }

/-- `DesktopMediaPickerDialogView::Accept()` of the dialog at address `p`; the
boolean is the value returned. -/
def DesktopMediaPickerDialogView.Accept (w : World) (p : Nat) : Except Fault (Bool × World) :=
  match w.dialogs p with
  | none => throw Fault.use_after_free
  | some d =>
    match d.source_optional with
    | .error e => .error e
    | .ok none => throw Fault.bad_optional_access
    | .ok (some source0) =>
      let source := { source0 with audio_share := d.audio_share }
      if d.parent_ then
        match DesktopMediaPickerViews.NotifyDialogResult w source with
        | .error e => .error e
        | .ok w1 => pure (true, w1)
      else pure (true, w)

/-- `DesktopMediaPickerDialogView::DeleteDelegate()` of the dialog at address `p`. -/
def DesktopMediaPickerDialogView.DeleteDelegate (w : World) (p : Nat) : Except Fault World :=
  match w.dialogs p with
  | none => throw Fault.use_after_free
  | some d =>
    if d.parent_ then
      match DesktopMediaPickerViews.NotifyDialogResult w DesktopMediaID.null with
      | .error e => .error e
      | .ok w1 => pure (w1.setDialog p none)
    else pure (w.setDialog p none)

/-- Modelled from the spec: `Widget::Close()` belongs to the toolkit; it marks the
dialog's window as closing, and the toolkit calls `DeleteDelegate()` afterwards. -/
def Widget_Close (w : World) (p : Nat) : Except Fault World :=
  match w.dialogs p with
  | none => throw Fault.use_after_free
  | some d => pure (w.setDialog p (some { d with widget_closed := true }))

/-- Modelled from the spec: `DialogClientView::AcceptWindow()` belongs to the toolkit;
the source says of it "This will call Accept() and close the dialog". -/
def AcceptWindow (w : World) (p : Nat) : Except Fault World :=
  match DesktopMediaPickerDialogView.Accept w p with
  | .error e => .error e
  | .ok (close, w1) => if close then Widget_Close w1 p else pure w1

/-- `DesktopMediaPickerDialogView::AcceptSource()`. -/
def DesktopMediaPickerDialogView.AcceptSource (w : World) (p : Nat) : Except Fault World :=
  AcceptWindow w p

/-- `DesktopMediaPickerDialogView::AcceptSpecificSource(source)`. -/
def DesktopMediaPickerDialogView.AcceptSpecificSource (w : World) (p : Nat)
    (source : DesktopMediaID) : Except Fault World :=
  match w.dialogs p with
  | none => throw Fault.use_after_free
  | some d =>
    DesktopMediaPickerDialogView.AcceptSource
      (w.setDialog p (some { d with accepted_source_ := some source })) p

/-- `DesktopMediaPickerViews::Show(params, source_lists, done_callback)`;
`done_callback` is none for a null callback, and `dialog_window_id` is the id the
platform gives the new dialog's window. -/
def DesktopMediaPickerViews.Show (cfg : BuildConfig) (w : World) (params : Params)
    (source_lists : List DesktopMediaList) (done_callback : Option DoneCallback)
    (dialog_window_id : DesktopMediaID) : Except Fault World :=
  match w.picker with
  | none => throw Fault.use_after_free
  | some _ =>
    match DesktopMediaPickerDialogView.create cfg params source_lists dialog_window_id with
    | .error e => .error e
    | .ok d =>
      pure { w.setDialog w.next_dialog (some d) with
        manager_calls := w.manager_calls ++ [ManagerCall.OnShowDialog]
        picker := some { dialog_ := some w.next_dialog, callback_ := done_callback }
        next_dialog := w.next_dialog + 1 }

/-- `DesktopMediaPickerViews::~DesktopMediaPickerViews()`. -/
def DesktopMediaPickerViews.destroy (w : World) : Except Fault World :=
  match w.picker with
  | none => throw Fault.use_after_free
  | some pk =>
    match pk.dialog_ with
    | none => pure { w with picker := none }
    | some p =>
      match w.dialogs p with
      | none => throw Fault.use_after_free
      | some d =>
        match Widget_Close (w.setDialog p (some d.DetachParent)) p with
        | .error e => .error e
        | .ok w1 => pure { w1 with picker := none }

/-! ## What the user does to an open dialog -/

/-- The user picks (or unpicks) an item in the gallery of tab `i`: the controller's
selection becomes `sel` and the controller calls `OnSelectionChanged()`. -/
def DesktopMediaPickerDialogView.userSelects (d : DesktopMediaPickerDialogView) (i : Nat)
    (sel : Option DesktopMediaID) : Except Fault DesktopMediaPickerDialogView :=
  match d.list_controllers_[i]? with
  | none => throw Fault.out_of_range
  | some c =>
    pure ({ d with list_controllers_ := d.list_controllers_.set i { c with selection := sel } }).OnSelectionChanged

/-- Apply a dialog method to the dialog at address `p`. -/
def World.onDialog (w : World) (p : Nat)
    (f : DesktopMediaPickerDialogView → Except Fault DesktopMediaPickerDialogView) :
    Except Fault World :=
  match w.dialogs p with
  | none => throw Fault.use_after_free
  | some d =>
    match f d with
    | .error e => .error e
    | .ok d1 => pure (w.setDialog p (some d1))

/-! ## Predicates used in the statements -/

/-- A dialog as the constructor leaves it and the operations keep it: every tab is a
Screen or a Window tab, there is one controller and one pane tab per category, the
listener is set and the active tab is one of the tabs. -/
def DesktopMediaPickerDialogView.Valid (d : DesktopMediaPickerDialogView) : Prop :=
  (∀ t ∈ d.source_types_, t = DesktopMediaIDType.TYPE_SCREEN ∨ t = DesktopMediaIDType.TYPE_WINDOW) ∧
  d.list_controllers_.length = d.source_types_.length ∧
  d.pane_.tabs.length = d.source_types_.length ∧
  d.pane_.has_listener = true ∧
  (∃ i, i < d.source_types_.length ∧ d.pane_.selected_tab_index = some i)

instance (d : DesktopMediaPickerDialogView) : Decidable d.Valid := by
  unfold DesktopMediaPickerDialogView.Valid
  infer_instance

/-- The dialog at address `p` is open: it is alive, still points to the session
owner, and the owner is alive and points to it. -/
def World.IsOpen (w : World) (p : Nat) (d : DesktopMediaPickerDialogView)
    (pk : DesktopMediaPickerViews) : Prop :=
  w.dialogs p = some d ∧ d.parent_ = true ∧ w.picker = some pk ∧ pk.dialog_ = some p

instance (w : World) (p : Nat) (d : DesktopMediaPickerDialogView)
    (pk : DesktopMediaPickerViews) : Decidable (w.IsOpen p d pk) := by
  unfold World.IsOpen
  infer_instance

/-- Modelled from the spec: the picker-visibility tracker (`DesktopMediaPickerManager`)
is outside the source file. It reports a picker open while it has heard more open
announcements than close announcements. -/
def picker_open (calls : List ManagerCall) : Bool :=
  calls.count ManagerCall.OnHideDialog < calls.count ManagerCall.OnShowDialog

/-- The number of dialogs alive at an address below `next_dialog`. -/
def World.live_dialogs (w : World) : Nat :=
  ((List.range w.next_dialog).filter (fun p => (w.dialogs p).isSome)).length

/-! ## Helper definitions for the statements about the constructor -/

/-- The categories the constructor makes a tab for. -/
def isSupported (t : DesktopMediaIDType) : Bool :=
  decide (t = TYPE_SCREEN) || decide (t = TYPE_WINDOW)

/-- The title the constructor gives the tab of a category. -/
def titleOf : DesktopMediaIDType → TabTitle
  | .TYPE_WINDOW => .IDS_DESKTOP_MEDIA_PICKER_SOURCE_TYPE_WINDOW
  | _ => .IDS_DESKTOP_MEDIA_PICKER_SOURCE_TYPE_SCREEN

/-- The source lists the constructor makes a tab for, in input order. -/
def supportedLists (ls : List DesktopMediaList) : List DesktopMediaList :=
  ls.filter (fun l => isSupported l.media_list_type)

/-- What the constructor's loop adds to the dialog for the source lists `ls`. -/
def addAll (d : DesktopMediaPickerDialogView) (ls : List DesktopMediaList) : DesktopMediaPickerDialogView :=
  { d with
    source_types_ := d.source_types_ ++ (supportedLists ls).map (fun l => l.media_list_type)
    list_controllers_ := d.list_controllers_ ++ (supportedLists ls).map DesktopMediaListController.make
    pane_ :=
      { tabs := d.pane_.tabs ++ (supportedLists ls).map (fun l => titleOf l.media_list_type)
        selected_tab_index :=
          match d.pane_.selected_tab_index with
          | some i => some i
          | none => if (supportedLists ls).isEmpty then none else some d.pane_.tabs.length
        has_listener := d.pane_.has_listener || !(supportedLists ls).isEmpty } }

/-! ## Sample inputs -/

/-- A Windows build with checks compiled in. -/
def sample_cfg : BuildConfig :=
  { USE_CRAS := false, OS_WIN := true, DCHECK_IS_ON := true }

/-- Parameters asking for audio. -/
def sample_params : Params :=
  { modality := .MODAL_TYPE_NONE, app_name := "app", target_name := "app", request_audio := true }

/-- A Screen list with one screen. -/
def sample_screen_list : DesktopMediaList :=
  { media_list_type := TYPE_SCREEN, sources := [{ type := TYPE_SCREEN, id := 1, audio_share := false }] }

/-- The window `W7`. -/
def W7 : DesktopMediaID :=
  { type := TYPE_WINDOW, id := 7, audio_share := false }

/-- A Window list holding `W7`. -/
def sample_window_list : DesktopMediaList :=
  { media_list_type := TYPE_WINDOW, sources := [W7] }

/-- A tab list (`TYPE_WEB_CONTENTS`). -/
def sample_tab_list : DesktopMediaList :=
  { media_list_type := TYPE_WEB_CONTENTS,
    sources := [{ type := TYPE_WEB_CONTENTS, id := 3, audio_share := false }] }

/-- The id of the dialog's own window. -/
def sample_window_id : DesktopMediaID :=
  { type := TYPE_WINDOW, id := 99, audio_share := false }

/-- The world of a run, or the initial world if the run crashed. -/
def World.ofRun (r : Except Fault World) : World :=
  match r with
  | .ok w => w
  | .error _ => World.init

/-- The dialog at address `p`, or the bare initial dialog if there is none. -/
def World.dialogAt (w : World) (p : Nat) : DesktopMediaPickerDialogView :=
  match w.dialogs p with
  | some d => d
  | none => DesktopMediaPickerDialogView.initial sample_params

/-- `Show` on a fresh owner with a Screen and a Window list and callback 1. -/
def sample_shown : Except Fault World :=
  DesktopMediaPickerViews.Show sample_cfg World.init sample_params
    [sample_screen_list, sample_window_list] (some 1) sample_window_id

/-- After `sample_shown` the user switches to the Window tab and picks `W7`. -/
def sample_picked : Except Fault World :=
  sample_shown >>= fun w =>
  w.onDialog 0 (fun d => DesktopMediaPickerDialogView.pane_SelectTabAt sample_cfg d 1) >>= fun w1 =>
  w1.onDialog 0 (fun d => d.userSelects 1 (some W7))

/-- After `sample_shown` the session owner is destroyed and the toolkit then deletes
the dialog. -/
def sample_owner_destroyed : Except Fault World :=
  sample_shown >>= fun w =>
  DesktopMediaPickerViews.destroy w >>= fun w1 =>
  DesktopMediaPickerDialogView.DeleteDelegate w1 0

/-- After `sample_shown` the dialog is closed without a choice. -/
def sample_cancelled : Except Fault World :=
  sample_shown >>= fun w => DesktopMediaPickerDialogView.DeleteDelegate w 0

/-- After `sample_shown` a collaborator forces screen 1. -/
def sample_forced : Except Fault World :=
  sample_shown >>= fun w =>
  DesktopMediaPickerDialogView.AcceptSpecificSource w 0
    { type := TYPE_SCREEN, id := 1, audio_share := false }

/-- `Show` on a fresh owner with a null callback. -/
def sample_shown_null : Except Fault World :=
  DesktopMediaPickerViews.Show sample_cfg World.init sample_params
    [sample_screen_list, sample_window_list] none sample_window_id

/-! ## The constructor -/

theorem addSourceLists_eq (cfg : BuildConfig) (ls : List DesktopMediaList)
    (h : cfg.DCHECK_IS_ON = true → ∀ l ∈ ls, l.media_list_type ≠ TYPE_NONE)
    (d : DesktopMediaPickerDialogView) :
    DesktopMediaPickerDialogView.addSourceLists cfg d ls = .ok (addAll d ls) := by
  induction ls generalizing d with
  | nil =>
    simp [DesktopMediaPickerDialogView.addSourceLists, addAll, supportedLists, pure, Except.pure]
    cases d with
    | mk a b c e pane f g h i j =>
      cases pane with
      | mk t s l => cases s <;> simp
  | cons l rest ih =>
    have hrest : cfg.DCHECK_IS_ON = true → ∀ l ∈ rest, l.media_list_type ≠ TYPE_NONE :=
      fun hc x hx => h hc x (List.mem_cons_of_mem _ hx)
    have hl : cfg.DCHECK_IS_ON = true → l.media_list_type ≠ TYPE_NONE :=
      fun hc => h hc l (List.mem_cons_self _ _)
    unfold DesktopMediaPickerDialogView.addSourceLists
    cases hty : l.media_list_type with
    | TYPE_NONE =>
      have hoff : cfg.DCHECK_IS_ON = false := by
        cases hc : cfg.DCHECK_IS_ON with
        | false => rfl
        | true => exact absurd hty (hl hc)
      simp only [DesktopMediaPickerDialogView.addSourceList, hty, NOTREACHED, hoff, bind, Except.bind, pure, Except.pure]
      simp only [Bool.false_eq_true, if_false]
      rw [ih hrest]
      simp [addAll, supportedLists, List.filter_cons, hty, isSupported]
    | TYPE_WEB_CONTENTS =>
      simp only [DesktopMediaPickerDialogView.addSourceList, hty, pure, Except.pure]
      rw [ih hrest]
      simp [addAll, supportedLists, List.filter_cons, hty, isSupported]
    | TYPE_SCREEN =>
      simp only [DesktopMediaPickerDialogView.addSourceList, hty, pure, Except.pure]
      rw [ih hrest]
      cases d with
      | mk a b c e pane f g h i j =>
        cases pane with
        | mk t s li =>
          cases s <;>
          simp [addAll, supportedLists, List.filter_cons, hty, isSupported, TabbedPane.AddTab, TabbedPane.set_listener, titleOf]
    | TYPE_WINDOW =>
      simp only [DesktopMediaPickerDialogView.addSourceList, hty, pure, Except.pure]
      rw [ih hrest]
      cases d with
      | mk a b c e pane f g h i j =>
        cases pane with
        | mk t s li =>
          cases s <;>
          simp [addAll, supportedLists, List.filter_cons, hty, isSupported, TabbedPane.AddTab, TabbedPane.set_listener, titleOf]


theorem supportedLists_head (ls : List DesktopMediaList) (l0 : DesktopMediaList)
    (rest : List DesktopMediaList) (h : supportedLists ls = l0 :: rest) :
    l0.media_list_type = TYPE_SCREEN ∨ l0.media_list_type = TYPE_WINDOW := by
  have hm : l0 ∈ supportedLists ls := by rw [h]; exact List.mem_cons_self _ _
  have := (List.mem_filter.mp hm).2
  simpa [isSupported] using this

theorem create_eq (cfg : BuildConfig) (params : Params) (ls : List DesktopMediaList)
    (wid : DesktopMediaID)
    (hnone : cfg.DCHECK_IS_ON = true → ∀ l ∈ ls, l.media_list_type ≠ TYPE_NONE)
    (hsome : supportedLists ls ≠ []) :
    ∃ d, DesktopMediaPickerDialogView.create cfg params ls wid = .ok d ∧
      d.source_types_ = (supportedLists ls).map (fun l => l.media_list_type) ∧
      d.list_controllers_ =
        (supportedLists ls).map (fun l => (DesktopMediaListController.make l).StartUpdating wid) ∧
      d.pane_ = { tabs := (supportedLists ls).map (fun l => titleOf l.media_list_type)
                  selected_tab_index := some 0
                  has_listener := true } ∧
      d.parent_ = true ∧ d.accepted_source_ = none ∧ d.widget_closed = false ∧
      d.audio_share_checkbox_ =
        (if params.request_audio then
          some { visible := decide ((supportedLists ls).head?.map (fun l => l.media_list_type)
                    = some TYPE_SCREEN) && (cfg.USE_CRAS || cfg.OS_WIN)
                 checked := true }
        else none) := by
  unfold DesktopMediaPickerDialogView.create
  rw [addSourceLists_eq cfg ls hnone]
  cases hs : supportedLists ls with
  | nil => exact absurd hs hsome
  | cons l0 rest =>
    have h0 := supportedLists_head ls l0 rest hs
    cases hra : params.request_audio <;> rcases h0 with h0 | h0 <;>
      simp [addAll, hs, DCHECK, DesktopMediaPickerDialogView.initial, TabbedPane.make,
        DesktopMediaPickerDialogView.OnSourceTypeSwitched, h0, pure, Except.pure, hra]


theorem supported_filter_eq (ls : List DesktopMediaList) :
    ls.filter (fun l => decide (l.media_list_type = TYPE_SCREEN ∨ l.media_list_type = TYPE_WINDOW))
      = supportedLists ls := by
  unfold supportedLists
  congr 1
  funext l
  simp [isSupported]

/-- C8: for every input holding at least one Screen or Window list (and no `TYPE_NONE`
list where `NOTREACHED` is compiled in), the constructor returns a dialog with one tab
and one controller per Screen or Window list, in input order, nothing for the other
lists, and tab 0 active: the categories are the input categories filtered to Screen
and Window, the controllers adapt the filtered lists, and the lengths agree. -/
theorem create_one_tab_per_supported_list (cfg : BuildConfig) (params : Params)
    (source_lists : List DesktopMediaList) (dialog_window_id : DesktopMediaID)
    (hnone : cfg.DCHECK_IS_ON = true → ∀ l ∈ source_lists, l.media_list_type ≠ TYPE_NONE)
    (hsome : ∃ l ∈ source_lists, l.media_list_type = TYPE_SCREEN ∨ l.media_list_type = TYPE_WINDOW) :
    ∃ d, DesktopMediaPickerDialogView.create cfg params source_lists dialog_window_id = .ok d ∧
      d.source_types_ =
        (source_lists.map (fun l => l.media_list_type)).filter
          (fun t => decide (t = TYPE_SCREEN ∨ t = TYPE_WINDOW)) ∧
      d.list_controllers_.map (fun c => c.media_list) =
        source_lists.filter
          (fun l => decide (l.media_list_type = TYPE_SCREEN ∨ l.media_list_type = TYPE_WINDOW)) ∧
      d.pane_.tabs = d.source_types_.map titleOf ∧
      d.list_controllers_.length = d.source_types_.length ∧
      d.pane_.tabs.length = d.source_types_.length ∧
      (∀ c ∈ d.list_controllers_,
        c.media_list.media_list_type ≠ TYPE_WEB_CONTENTS ∧ c.updating = some dialog_window_id) ∧
      d.pane_.selected_tab_index = some 0 := by
  have hne : supportedLists source_lists ≠ [] := by
    obtain ⟨l, hl, hty⟩ := hsome
    have : l ∈ supportedLists source_lists :=
      List.mem_filter.mpr ⟨hl, by rcases hty with h | h <;> simp [isSupported, h]⟩
    exact List.ne_nil_of_mem this
  obtain ⟨d, hd, htypes, hctl, hpane, -, -, -, -⟩ :=
    create_eq cfg params source_lists dialog_window_id hnone hne
  refine ⟨d, hd, ?_, ?_, ?_, ?_, ?_, ?_, ?_⟩
  · rw [htypes, ← supported_filter_eq, List.filter_map]
    rfl
  · rw [hctl, supported_filter_eq, List.map_map]
    simp [Function.comp_def, DesktopMediaListController.make,
      DesktopMediaListController.StartUpdating]
  · rw [hpane, htypes, List.map_map]
    rfl
  · rw [hctl, htypes]; simp
  · rw [hpane, htypes]; simp
  · intro c hc
    rw [hctl] at hc
    obtain ⟨l, hl, rfl⟩ := List.mem_map.mp hc
    have := (List.mem_filter.mp hl).2
    refine ⟨?_, rfl⟩
    intro h
    simp [DesktopMediaListController.make, DesktopMediaListController.StartUpdating] at h
    simp [isSupported, h] at this
  · rw [hpane]

/-! ## Tabs and the checkbox -/

theorem Valid_type_at (d : DesktopMediaPickerDialogView) (hv : d.Valid) (i : Nat)
    (hi : i < d.source_types_.length) :
    d.source_types_[i]? = some TYPE_SCREEN ∨ d.source_types_[i]? = some TYPE_WINDOW := by
  have hmem : d.source_types_[i] ∈ d.source_types_ := List.getElem_mem _
  rw [List.getElem?_eq_getElem hi]
  rcases hv.1 _ hmem with h | h <;> simp [h]

theorem Valid_controller_at (d : DesktopMediaPickerDialogView) (hv : d.Valid) (i : Nat)
    (hi : i < d.source_types_.length) :
    ∃ c, d.list_controllers_[i]? = some c := by
  have : i < d.list_controllers_.length := by rw [hv.2.1]; exact hi
  exact ⟨_, List.getElem?_eq_getElem this⟩

/-- C7: in a dialog with a checkbox, after `OnSourceTypeSwitched(i)` or `TabSelectedAt(i)`
for a valid tab index `i`, the checkbox is visible exactly when tab `i` is a Screen tab
and the build supports system audio (`USE_CRAS` or `OS_WIN`); on a Window tab it is not
visible, whatever it was before. Its checked state is kept. -/
theorem TabSelectedAt_checkbox_visible (cfg : BuildConfig) (d : DesktopMediaPickerDialogView)
    (cb : Checkbox) (i : Nat) (hv : d.Valid) (hcb : d.audio_share_checkbox_ = some cb)
    (hi : i < d.source_types_.length) :
    ∃ d1 d2 v,
      DesktopMediaPickerDialogView.OnSourceTypeSwitched cfg d i = .ok d1 ∧
      DesktopMediaPickerDialogView.TabSelectedAt cfg d i = .ok d2 ∧
      d1.audio_share_checkbox_ = some { visible := v, checked := cb.checked } ∧
      d2.audio_share_checkbox_ = some { visible := v, checked := cb.checked } ∧
      (v = true ↔
        d.source_types_[i]? = some TYPE_SCREEN ∧ (cfg.USE_CRAS = true ∨ cfg.OS_WIN = true)) ∧
      (d.source_types_[i]? = some TYPE_WINDOW → v = false) := by
  obtain ⟨c, hc⟩ := Valid_controller_at d hv i hi
  rcases Valid_type_at d hv i hi with ht | ht
  · refine ⟨{ d with audio_share_checkbox_ := some { cb with visible := cfg.USE_CRAS || cfg.OS_WIN } },
      ({ d with
          audio_share_checkbox_ := some { cb with visible := cfg.USE_CRAS || cfg.OS_WIN }
          list_controllers_ := d.list_controllers_.set i c.FocusView }).DialogModelChanged,
      cfg.USE_CRAS || cfg.OS_WIN, ?_, ?_, rfl, rfl, ?_, ?_⟩
    · simp [DesktopMediaPickerDialogView.OnSourceTypeSwitched, hcb, ht, pure, Except.pure]
    · simp [DesktopMediaPickerDialogView.TabSelectedAt,
        DesktopMediaPickerDialogView.OnSourceTypeSwitched, hcb, ht, hc, pure, Except.pure]
    · simp [ht]
    · simp [ht]
  · refine ⟨{ d with audio_share_checkbox_ := some { cb with visible := false } },
      ({ d with
          audio_share_checkbox_ := some { cb with visible := false }
          list_controllers_ := d.list_controllers_.set i c.FocusView }).DialogModelChanged,
      false, ?_, ?_, rfl, rfl, ?_, ?_⟩
    · simp [DesktopMediaPickerDialogView.OnSourceTypeSwitched, hcb, ht, pure, Except.pure]
    · simp [DesktopMediaPickerDialogView.TabSelectedAt,
        DesktopMediaPickerDialogView.OnSourceTypeSwitched, hcb, ht, hc, pure, Except.pure]
    · simp [ht]
    · simp

theorem TabSelectedAt_ok (cfg : BuildConfig) (d : DesktopMediaPickerDialogView) (i : Nat)
    (hv : d.Valid) (hi : i < d.source_types_.length) :
    ∃ d1, DesktopMediaPickerDialogView.TabSelectedAt cfg d i = .ok d1 ∧
      d1.pane_ = d.pane_ ∧ d1.source_types_ = d.source_types_ ∧
      d1.list_controllers_.length = d.list_controllers_.length ∧
      d1.parent_ = d.parent_ ∧ d1.accepted_source_ = d.accepted_source_ := by
  obtain ⟨c, hc⟩ := Valid_controller_at d hv i hi
  cases hcb : d.audio_share_checkbox_ with
  | none =>
    refine ⟨({ d with list_controllers_ := d.list_controllers_.set i c.FocusView }).DialogModelChanged,
      ?_, rfl, rfl, ?_, rfl, rfl⟩
    · simp [DesktopMediaPickerDialogView.TabSelectedAt,
        DesktopMediaPickerDialogView.OnSourceTypeSwitched, hcb, hc, pure, Except.pure]
    · simp [DesktopMediaPickerDialogView.DialogModelChanged]
  | some cb =>
    rcases Valid_type_at d hv i hi with ht | ht
    · refine ⟨({ d with
          audio_share_checkbox_ := some { cb with visible := cfg.USE_CRAS || cfg.OS_WIN }
          list_controllers_ := d.list_controllers_.set i c.FocusView }).DialogModelChanged,
        ?_, rfl, rfl, ?_, rfl, rfl⟩
      · simp [DesktopMediaPickerDialogView.TabSelectedAt,
          DesktopMediaPickerDialogView.OnSourceTypeSwitched, hcb, ht, hc, pure, Except.pure]
      · simp [DesktopMediaPickerDialogView.DialogModelChanged]
    · refine ⟨({ d with
          audio_share_checkbox_ := some { cb with visible := false }
          list_controllers_ := d.list_controllers_.set i c.FocusView }).DialogModelChanged,
        ?_, rfl, rfl, ?_, rfl, rfl⟩
      · simp [DesktopMediaPickerDialogView.TabSelectedAt,
          DesktopMediaPickerDialogView.OnSourceTypeSwitched, hcb, ht, hc, pure, Except.pure]
      · simp [DesktopMediaPickerDialogView.DialogModelChanged]

theorem pane_SelectTabAt_ok (cfg : BuildConfig) (d : DesktopMediaPickerDialogView) (i : Nat)
    (hv : d.Valid) (hi : i < d.source_types_.length) :
    ∃ d1, DesktopMediaPickerDialogView.pane_SelectTabAt cfg d i = .ok d1 ∧
      d1.pane_ = { d.pane_ with selected_tab_index := some i } ∧
      d1.source_types_ = d.source_types_ ∧
      d1.list_controllers_.length = d.list_controllers_.length ∧
      d1.parent_ = d.parent_ ∧ d1.accepted_source_ = d.accepted_source_ := by
  have hv1 : ({ d with pane_ := { d.pane_ with selected_tab_index := some i } } :
      DesktopMediaPickerDialogView).Valid :=
    ⟨hv.1, hv.2.1, hv.2.2.1, hv.2.2.2.1, i, hi, rfl⟩
  obtain ⟨d1, h1, h2, h3, h4, h5, h6⟩ := TabSelectedAt_ok cfg _ i hv1 hi
  refine ⟨d1, ?_, h2, h3, h4, h5, h6⟩
  have hlen : i < d.pane_.tabs.length := by rw [hv.2.2.1]; exact hi
  unfold DesktopMediaPickerDialogView.pane_SelectTabAt
  rw [if_pos hlen]
  have hl : d.pane_.has_listener = true := hv.2.2.2.1
  simp only []
  rw [if_pos hl]
  exact h1

theorem SelectTab_loop_found (cfg : BuildConfig) (d : DesktopMediaPickerDialogView)
    (c : DesktopMediaIDType) :
    ∀ (rest : List DesktopMediaIDType) (k i : Nat), rest[i]? = some c →
      (∀ j : Nat, j < i → rest[j]? ≠ some c) →
      DesktopMediaPickerDialogView.SelectTab_loop cfg d c rest k =
        DesktopMediaPickerDialogView.pane_SelectTabAt cfg d (k + i) := by
  intro rest
  induction rest with
  | nil => intro k i h; simp at h
  | cons t rest ih =>
    intro k i h hmin
    cases i with
    | zero =>
      have : t = c := by simpa using h
      simp [DesktopMediaPickerDialogView.SelectTab_loop, this]
    | succ i =>
      have hne : t ≠ c := by
        have := hmin 0 (Nat.succ_pos i)
        simpa using this
      have h1 : rest[i]? = some c := by simpa using h
      have h2 : ∀ j : Nat, j < i → rest[j]? ≠ some c := by
        intro j hj
        have := hmin (j + 1) (Nat.succ_lt_succ hj)
        simpa using this
      simp only [DesktopMediaPickerDialogView.SelectTab_loop, hne, if_false]
      rw [ih (k + 1) i h1 h2]
      congr 1
      omega

theorem SelectTab_loop_absent (cfg : BuildConfig) (d : DesktopMediaPickerDialogView)
    (c : DesktopMediaIDType) :
    ∀ (rest : List DesktopMediaIDType) (k : Nat), (∀ i : Nat, rest[i]? ≠ some c) →
      DesktopMediaPickerDialogView.SelectTab_loop cfg d c rest k = .ok d := by
  intro rest
  induction rest with
  | nil => intro k _; rfl
  | cons t rest ih =>
    intro k h
    have hne : t ≠ c := by
      have := h 0
      simpa using this
    have h2 : ∀ i : Nat, rest[i]? ≠ some c := by
      intro i
      have := h (i + 1)
      simpa using this
    simp only [DesktopMediaPickerDialogView.SelectTab_loop, hne, if_false]
    exact ih (k + 1) h2

/-- C9: `SelectTab(c)` does what the pane's `SelectTabAt(i)` does for the smallest index
`i` whose category is `c`, and tab `i` is then the active one; when no tab has
category `c` the dialog is returned unchanged. -/
theorem SelectTab_selects_first_tab_of_category (cfg : BuildConfig)
    (d : DesktopMediaPickerDialogView) (c : DesktopMediaIDType) (hv : d.Valid) :
    (∀ i : Nat, d.source_types_[i]? = some c →
        (∀ j : Nat, j < i → d.source_types_[j]? ≠ some c) →
      DesktopMediaPickerDialogView.SelectTab cfg d c =
        DesktopMediaPickerDialogView.pane_SelectTabAt cfg d i ∧
      ∃ d1, DesktopMediaPickerDialogView.SelectTab cfg d c = .ok d1 ∧
        d1.pane_.selected_tab_index = some i ∧ d1.source_types_ = d.source_types_) ∧
    ((∀ i : Nat, d.source_types_[i]? ≠ some c) →
      DesktopMediaPickerDialogView.SelectTab cfg d c = .ok d) := by
  constructor
  · intro i hi hmin
    have heq : DesktopMediaPickerDialogView.SelectTab cfg d c =
        DesktopMediaPickerDialogView.pane_SelectTabAt cfg d i := by
      unfold DesktopMediaPickerDialogView.SelectTab
      rw [SelectTab_loop_found cfg d c d.source_types_ 0 i hi hmin, Nat.zero_add]
    have hlt : i < d.source_types_.length := by
      by_contra hge
      rw [List.getElem?_eq_none (Nat.le_of_not_lt hge)] at hi
      exact Option.noConfusion hi
    obtain ⟨d1, h1, h2, h3, -⟩ := pane_SelectTabAt_ok cfg d i hv hlt
    exact ⟨heq, d1, heq.trans h1, by rw [h2], h3⟩
  · intro h
    exact SelectTab_loop_absent cfg d c d.source_types_ 0 h

/-! ## Results and the session owner -/

theorem NotifyDialogResult_eq (w : World) (p : Nat) (d : DesktopMediaPickerDialogView)
    (pk : DesktopMediaPickerViews) (source : DesktopMediaID)
    (hpk : w.picker = some pk) (hd : pk.dialog_ = some p) (hlive : w.dialogs p = some d) :
    DesktopMediaPickerViews.NotifyDialogResult w source =
      .ok { w.setDialog p (some d.DetachParent) with
        notify_calls := w.notify_calls ++ [source]
        manager_calls := w.manager_calls ++ [ManagerCall.OnHideDialog]
        picker := some { dialog_ := none, callback_ := none }
        posted_tasks :=
          match pk.callback_ with
          | none => w.posted_tasks
          | some cb => w.posted_tasks ++ [(cb, source)] } := by
  cases hcb : pk.callback_ with
  | none =>
    simp only [DesktopMediaPickerViews.NotifyDialogResult, hpk, hd, hlive, hcb]
    simp [pure, Except.pure, World.setDialog, hcb]
  | some cb =>
    simp only [DesktopMediaPickerViews.NotifyDialogResult, hpk, hd, hlive, hcb]
    rfl

theorem Accept_open_eq (w : World) (p : Nat) (d : DesktopMediaPickerDialogView)
    (pk : DesktopMediaPickerViews) (source0 : DesktopMediaID)
    (hopen : w.IsOpen p d pk) (hsel : d.source_optional = .ok (some source0)) :
    DesktopMediaPickerDialogView.Accept w p =
      .ok (true, { w.setDialog p (some d.DetachParent) with
        notify_calls := w.notify_calls ++ [{ source0 with audio_share := d.audio_share }]
        manager_calls := w.manager_calls ++ [ManagerCall.OnHideDialog]
        picker := some { dialog_ := none, callback_ := none }
        posted_tasks :=
          match pk.callback_ with
          | none => w.posted_tasks
          | some cb => w.posted_tasks ++ [(cb, { source0 with audio_share := d.audio_share })] }) := by
  obtain ⟨hlive, hparent, hpk, hd⟩ := hopen
  simp only [DesktopMediaPickerDialogView.Accept, hlive, hsel, hparent, if_true,
    NotifyDialogResult_eq w p d pk _ hpk hd hlive]
  rfl

theorem Accept_detached_eq (w : World) (p : Nat) (d : DesktopMediaPickerDialogView)
    (hlive : w.dialogs p = some d) (hparent : d.parent_ = false) :
    DesktopMediaPickerDialogView.Accept w p =
      (match d.source_optional with
       | .error e => .error e
       | .ok none => .error Fault.bad_optional_access
       | .ok (some _) => .ok (true, w)) := by
  simp only [DesktopMediaPickerDialogView.Accept, hlive, hparent]
  cases d.source_optional with
  | error e => rfl
  | ok o => cases o <;> rfl

theorem DeleteDelegate_open_eq (w : World) (p : Nat) (d : DesktopMediaPickerDialogView)
    (pk : DesktopMediaPickerViews) (hopen : w.IsOpen p d pk) :
    DesktopMediaPickerDialogView.DeleteDelegate w p =
      .ok { w.setDialog p none with
        notify_calls := w.notify_calls ++ [DesktopMediaID.null]
        manager_calls := w.manager_calls ++ [ManagerCall.OnHideDialog]
        picker := some { dialog_ := none, callback_ := none }
        posted_tasks :=
          match pk.callback_ with
          | none => w.posted_tasks
          | some cb => w.posted_tasks ++ [(cb, DesktopMediaID.null)] } := by
  obtain ⟨hlive, hparent, hpk, hd⟩ := hopen
  simp only [DesktopMediaPickerDialogView.DeleteDelegate, hlive, hparent, if_true,
    NotifyDialogResult_eq w p d pk _ hpk hd hlive]
  simp [pure, Except.pure, World.setDialog]
  funext q
  by_cases hq : q = p <;> simp [hq]

theorem DeleteDelegate_detached_eq (w : World) (p : Nat) (d : DesktopMediaPickerDialogView)
    (hlive : w.dialogs p = some d) (hparent : d.parent_ = false) :
    DesktopMediaPickerDialogView.DeleteDelegate w p = .ok (w.setDialog p none) := by
  simp only [DesktopMediaPickerDialogView.DeleteDelegate, hlive, hparent]
  rfl

theorem destroy_open_eq (w : World) (p : Nat) (d : DesktopMediaPickerDialogView)
    (pk : DesktopMediaPickerViews) (hpk : w.picker = some pk) (hd : pk.dialog_ = some p)
    (hlive : w.dialogs p = some d) :
    DesktopMediaPickerViews.destroy w =
      .ok { w.setDialog p (some { d with parent_ := false, widget_closed := true }) with
        picker := none } := by
  simp only [DesktopMediaPickerViews.destroy, hpk, hd, hlive]
  simp [Widget_Close, World.setDialog, pure, Except.pure,
    DesktopMediaPickerDialogView.DetachParent]
  funext q
  by_cases hq : q = p <;> simp [hq]

theorem AcceptWindow_open (w : World) (p : Nat) (d : DesktopMediaPickerDialogView)
    (pk : DesktopMediaPickerViews) (source0 : DesktopMediaID)
    (hopen : w.IsOpen p d pk) (hsel : d.source_optional = .ok (some source0)) :
    ∃ w1, AcceptWindow w p = .ok w1 ∧
      w1.dialogs p = some { d with parent_ := false, widget_closed := true } ∧
      w1.picker = some { dialog_ := none, callback_ := none } ∧
      w1.notify_calls = w.notify_calls ++ [{ source0 with audio_share := d.audio_share }] ∧
      w1.manager_calls = w.manager_calls ++ [ManagerCall.OnHideDialog] ∧
      w1.posted_tasks =
        (match pk.callback_ with
         | none => w.posted_tasks
         | some cb => w.posted_tasks ++ [(cb, { source0 with audio_share := d.audio_share })]) := by
  refine ⟨{ w.setDialog p (some { d with parent_ := false, widget_closed := true }) with
        notify_calls := w.notify_calls ++ [{ source0 with audio_share := d.audio_share }]
        manager_calls := w.manager_calls ++ [ManagerCall.OnHideDialog]
        picker := some { dialog_ := none, callback_ := none }
        posted_tasks :=
          match pk.callback_ with
          | none => w.posted_tasks
          | some cb => w.posted_tasks ++ [(cb, { source0 with audio_share := d.audio_share })] },
    ?_, ?_, rfl, rfl, rfl, rfl⟩
  · simp only [AcceptWindow, Accept_open_eq w p d pk source0 hopen hsel]
    simp [Widget_Close, World.setDialog, pure, Except.pure,
      DesktopMediaPickerDialogView.DetachParent]
    funext q
    by_cases hq : q = p <;> simp [hq]
  · simp [World.setDialog]

theorem AcceptSpecificSource_open (w : World) (p : Nat) (d : DesktopMediaPickerDialogView)
    (pk : DesktopMediaPickerViews) (source : DesktopMediaID) (hopen : w.IsOpen p d pk) :
    ∃ w1, DesktopMediaPickerDialogView.AcceptSpecificSource w p source = .ok w1 ∧
      w1.dialogs p =
        some { d with accepted_source_ := some source, parent_ := false, widget_closed := true } ∧
      w1.picker = some { dialog_ := none, callback_ := none } ∧
      w1.notify_calls = w.notify_calls ++ [{ source with audio_share := d.audio_share }] ∧
      w1.manager_calls = w.manager_calls ++ [ManagerCall.OnHideDialog] ∧
      w1.posted_tasks =
        (match pk.callback_ with
         | none => w.posted_tasks
         | some cb => w.posted_tasks ++ [(cb, { source with audio_share := d.audio_share })]) := by
  have hopen1 : (w.setDialog p (some { d with accepted_source_ := some source })).IsOpen p
      { d with accepted_source_ := some source } pk :=
    ⟨by simp [World.setDialog], hopen.2.1, hopen.2.2.1, hopen.2.2.2⟩
  have hsel : ({ d with accepted_source_ := some source } :
      DesktopMediaPickerDialogView).source_optional = .ok (some source) := by
    simp [DesktopMediaPickerDialogView.source_optional, pure, Except.pure]
  obtain ⟨w1, h1, h2, h3, h4, h5, h6⟩ := AcceptWindow_open _ p _ pk source hopen1 hsel
  refine ⟨w1, ?_, h2, h3, h4, h5, h6⟩
  simp only [DesktopMediaPickerDialogView.AcceptSpecificSource, hopen.1,
    DesktopMediaPickerDialogView.AcceptSource]
  exact h1

theorem audio_share_iff (d : DesktopMediaPickerDialogView) :
    d.audio_share = true ↔
      ∃ cb, d.audio_share_checkbox_ = some cb ∧ cb.visible = true ∧ cb.checked = true := by
  unfold DesktopMediaPickerDialogView.audio_share
  cases d.audio_share_checkbox_ with
  | none => simp
  | some cb => simp

theorem source_optional_cases (d : DesktopMediaPickerDialogView) (source0 : DesktopMediaID)
    (hsel : d.source_optional = .ok (some source0)) :
    d.accepted_source_ = some source0 ∨
      (d.accepted_source_ = none ∧
        ∃ c, d.GetSelectedController = .ok c ∧ c.GetSelection = some source0) := by
  unfold DesktopMediaPickerDialogView.source_optional at hsel
  cases hacc : d.accepted_source_ with
  | some s =>
    left
    simp [hacc, pure, Except.pure] at hsel
    rw [hsel]
  | none =>
    right
    refine ⟨rfl, ?_⟩
    simp only [hacc, Option.isSome_none, Bool.false_eq_true, if_false] at hsel
    cases hc : d.GetSelectedController with
    | error e => simp [hc] at hsel
    | ok c =>
      refine ⟨c, rfl, ?_⟩
      simp [hc, pure, Except.pure] at hsel
      exact hsel

theorem create_Valid (cfg : BuildConfig) (params : Params) (ls : List DesktopMediaList)
    (wid : DesktopMediaID)
    (hnone : cfg.DCHECK_IS_ON = true → ∀ l ∈ ls, l.media_list_type ≠ TYPE_NONE)
    (hsome : ∃ l ∈ ls, l.media_list_type = TYPE_SCREEN ∨ l.media_list_type = TYPE_WINDOW) :
    ∃ d, DesktopMediaPickerDialogView.create cfg params ls wid = .ok d ∧ d.Valid ∧
      d.parent_ = true ∧ d.accepted_source_ = none ∧ d.widget_closed = false := by
  have hne : supportedLists ls ≠ [] := by
    obtain ⟨l, hl, hty⟩ := hsome
    have : l ∈ supportedLists ls :=
      List.mem_filter.mpr ⟨hl, by rcases hty with h | h <;> simp [isSupported, h]⟩
    exact List.ne_nil_of_mem this
  obtain ⟨d, hd, htypes, hctl, hpane, hpar, hacc, hwc, -⟩ := create_eq cfg params ls wid hnone hne
  refine ⟨d, hd, ⟨?_, ?_, ?_, ?_, 0, ?_, ?_⟩, hpar, hacc, hwc⟩
  · intro t ht
    rw [htypes] at ht
    obtain ⟨l, hl, rfl⟩ := List.mem_map.mp ht
    have := (List.mem_filter.mp hl).2
    simpa [isSupported] using this
  · rw [hctl, htypes]; simp
  · rw [hpane, htypes]; simp
  · rw [hpane]
  · rw [htypes, List.length_map]
    exact List.length_pos.mpr hne
  · rw [hpane]

theorem Show_eq (cfg : BuildConfig) (w : World) (params : Params)
    (source_lists : List DesktopMediaList) (done_callback : Option DoneCallback)
    (dialog_window_id : DesktopMediaID) (d : DesktopMediaPickerDialogView)
    (hpk : w.picker ≠ none)
    (hd : DesktopMediaPickerDialogView.create cfg params source_lists dialog_window_id = .ok d) :
    DesktopMediaPickerViews.Show cfg w params source_lists done_callback dialog_window_id =
      .ok { w.setDialog w.next_dialog (some d) with
        manager_calls := w.manager_calls ++ [ManagerCall.OnShowDialog]
        picker := some { dialog_ := some w.next_dialog, callback_ := done_callback }
        next_dialog := w.next_dialog + 1 } := by
  unfold DesktopMediaPickerViews.Show
  cases h : w.picker with
  | none => exact absurd h hpk
  | some pk => simp only [hd]; rfl

/-- C1 (as amended): a `Show` with a non-null callback leaves the dialog open; from every
state in which that dialog is still open, confirming (`AcceptWindow` with a selection,
then `DeleteDelegate`), cancelling or closing (`Widget::Close`, then `DeleteDelegate`)
and forcing a source (`AcceptSpecificSource`, then `DeleteDelegate`) each post exactly
one task to the stored callback, while destroying the owner (then `DeleteDelegate`)
posts none. -/
theorem Show_then_dismissal_posts_once_unless_owner_destroyed (cfg : BuildConfig) (w0 : World)
    (params : Params) (source_lists : List DesktopMediaList) (cb : DoneCallback)
    (dialog_window_id : DesktopMediaID)
    (halive : w0.picker ≠ none)
    (hnone : cfg.DCHECK_IS_ON = true → ∀ l ∈ source_lists, l.media_list_type ≠ TYPE_NONE)
    (hsome : ∃ l ∈ source_lists, l.media_list_type = TYPE_SCREEN ∨ l.media_list_type = TYPE_WINDOW) :
    ∃ w d,
      DesktopMediaPickerViews.Show cfg w0 params source_lists (some cb) dialog_window_id = .ok w ∧
      w.IsOpen w0.next_dialog d { dialog_ := some w0.next_dialog, callback_ := some cb } ∧
      w.posted_tasks = w0.posted_tasks ∧
      ∀ (w1 : World) (d1 : DesktopMediaPickerDialogView),
        w1.IsOpen w0.next_dialog d1 { dialog_ := some w0.next_dialog, callback_ := some cb } →
        (∀ source0, d1.source_optional = .ok (some source0) →
          ∃ w2 w3, AcceptWindow w1 w0.next_dialog = .ok w2 ∧
            DesktopMediaPickerDialogView.DeleteDelegate w2 w0.next_dialog = .ok w3 ∧
            w3.posted_tasks =
              w1.posted_tasks ++ [(cb, { source0 with audio_share := d1.audio_share })]) ∧
        (∃ w2 w3, Widget_Close w1 w0.next_dialog = .ok w2 ∧
            DesktopMediaPickerDialogView.DeleteDelegate w2 w0.next_dialog = .ok w3 ∧
            w3.posted_tasks = w1.posted_tasks ++ [(cb, DesktopMediaID.null)]) ∧
        (∀ source, ∃ w2 w3,
            DesktopMediaPickerDialogView.AcceptSpecificSource w1 w0.next_dialog source = .ok w2 ∧
            DesktopMediaPickerDialogView.DeleteDelegate w2 w0.next_dialog = .ok w3 ∧
            w3.posted_tasks =
              w1.posted_tasks ++ [(cb, { source with audio_share := d1.audio_share })]) ∧
        (∃ w2 w3, DesktopMediaPickerViews.destroy w1 = .ok w2 ∧
            DesktopMediaPickerDialogView.DeleteDelegate w2 w0.next_dialog = .ok w3 ∧
            w3.posted_tasks = w1.posted_tasks) := by
  obtain ⟨d, hd, -, hpar, -, -⟩ :=
    create_Valid cfg params source_lists dialog_window_id hnone hsome
  refine ⟨_, d, Show_eq cfg w0 params source_lists (some cb) dialog_window_id d halive hd,
    ⟨by simp [World.setDialog], hpar, rfl, rfl⟩, rfl, ?_⟩
  intro w1 d1 hopen
  refine ⟨?_, ?_, ?_, ?_⟩
  · intro source0 hsel
    obtain ⟨w2, h2, hd2, -, -, -, hpost⟩ := AcceptWindow_open w1 _ d1 _ source0 hopen hsel
    exact ⟨w2, _, h2, DeleteDelegate_detached_eq w2 _ _ hd2 rfl, hpost⟩
  · have hopen2 : (w1.setDialog w0.next_dialog (some { d1 with widget_closed := true })).IsOpen
        w0.next_dialog { d1 with widget_closed := true }
        { dialog_ := some w0.next_dialog, callback_ := some cb } :=
      ⟨by simp [World.setDialog], hopen.2.1, hopen.2.2.1, rfl⟩
    refine ⟨_, _, ?_, DeleteDelegate_open_eq _ _ _ _ hopen2, rfl⟩
    simp only [Widget_Close, hopen.1]
    rfl
  · intro source
    obtain ⟨w2, h2, hd2, -, -, -, hpost⟩ := AcceptSpecificSource_open w1 _ d1 _ source hopen
    exact ⟨w2, _, h2, DeleteDelegate_detached_eq w2 _ _ hd2 rfl, hpost⟩
  · refine ⟨_, _, destroy_open_eq w1 _ d1 _ hopen.2.2.1 rfl hopen.1,
      DeleteDelegate_detached_eq _ _ { d1 with parent_ := false, widget_closed := true }
        (by simp [World.setDialog]) rfl, rfl⟩

/-- Witness for C1 (as amended): `Show` on a fresh owner with a Screen and a Window list. -/
theorem Show_then_dismissal_posts_once_unless_owner_destroyed_witness :
    World.init.picker ≠ none ∧
    (sample_cfg.DCHECK_IS_ON = true →
      ∀ l ∈ [sample_screen_list, sample_window_list], l.media_list_type ≠ TYPE_NONE) ∧
    (∃ l ∈ [sample_screen_list, sample_window_list],
      l.media_list_type = TYPE_SCREEN ∨ l.media_list_type = TYPE_WINDOW) ∧
    ∃ w d,
      DesktopMediaPickerViews.Show sample_cfg World.init sample_params
        [sample_screen_list, sample_window_list] (some 1) sample_window_id = .ok w ∧
      w.IsOpen 0 d { dialog_ := some 0, callback_ := some 1 } ∧
      (∃ w2 w3, Widget_Close w 0 = .ok w2 ∧
        DesktopMediaPickerDialogView.DeleteDelegate w2 0 = .ok w3 ∧
        w3.posted_tasks = w.posted_tasks ++ [(1, DesktopMediaID.null)]) ∧
      (∃ w2 w3, DesktopMediaPickerViews.destroy w = .ok w2 ∧
        DesktopMediaPickerDialogView.DeleteDelegate w2 0 = .ok w3 ∧
        w3.posted_tasks = w.posted_tasks) :=
  have h1 : World.init.picker ≠ none := by decide
  have h2 : sample_cfg.DCHECK_IS_ON = true →
      ∀ l ∈ [sample_screen_list, sample_window_list], l.media_list_type ≠ TYPE_NONE := by decide
  have h3 : ∃ l ∈ [sample_screen_list, sample_window_list],
      l.media_list_type = TYPE_SCREEN ∨ l.media_list_type = TYPE_WINDOW := by decide
  ⟨h1, h2, h3,
    match Show_then_dismissal_posts_once_unless_owner_destroyed sample_cfg World.init
        sample_params [sample_screen_list, sample_window_list] 1 sample_window_id h1 h2 h3 with
    | ⟨w, d, hshow, hopen, _, hpaths⟩ =>
      ⟨w, d, hshow, hopen, (hpaths w d hopen).2.1, (hpaths w d hopen).2.2.2⟩⟩

/-- Counterexample to C1: `Show` with callback 1, then the owner is destroyed while the
dialog is open, then the dialog is deleted. The run completes and no task was posted. -/
theorem owner_destroyed_posts_no_result :
    (sample_owner_destroyed.toOption.map fun w => (w.posted_tasks, w.notify_calls, w.dialogs 0))
      = some ([], [], none) := by
  decide

/-- C2 (as amended): in a dialog as the constructor leaves it, `IsDialogButtonEnabled(OK)`
returns exactly whether the active tab's controller reports a selection; the forced
selection is not read. When it returns true a selection exists for `Accept`. -/
theorem IsDialogButtonEnabled_OK_reads_active_tab (d : DesktopMediaPickerDialogView)
    (hv : d.Valid) :
    ∃ c, d.GetSelectedController = .ok c ∧
      d.IsDialogButtonEnabled .DIALOG_BUTTON_OK = .ok c.GetSelection.isSome ∧
      (c.GetSelection.isSome = true → ∃ source, d.source_optional = .ok (some source)) := by
  obtain ⟨_, hlen, _, _, i, hi, hsel⟩ := hv
  have hic : i < d.list_controllers_.length := by rw [hlen]; exact hi
  have hget : d.GetSelectedController = .ok d.list_controllers_[i] := by
    simp [DesktopMediaPickerDialogView.GetSelectedController, hsel,
      List.getElem?_eq_getElem hic, pure, Except.pure]
  refine ⟨d.list_controllers_[i], hget, ?_, ?_⟩
  · simp [DesktopMediaPickerDialogView.IsDialogButtonEnabled, hget, pure, Except.pure]
  · intro hs
    unfold DesktopMediaPickerDialogView.source_optional
    cases hacc : d.accepted_source_ with
    | some s => exact ⟨s, by simp [pure, Except.pure]⟩
    | none =>
      obtain ⟨s, hs1⟩ := Option.isSome_iff_exists.mp hs
      exact ⟨s, by simp [hget, hs1, pure, Except.pure]⟩

/-- Witness for C2 (as amended): the dialog right after `Show`. -/
theorem IsDialogButtonEnabled_OK_reads_active_tab_witness :
    ((World.ofRun sample_shown).dialogAt 0).Valid ∧
    ∃ c, ((World.ofRun sample_shown).dialogAt 0).GetSelectedController = .ok c ∧
      ((World.ofRun sample_shown).dialogAt 0).IsDialogButtonEnabled .DIALOG_BUTTON_OK
        = .ok c.GetSelection.isSome :=
  have hv : ((World.ofRun sample_shown).dialogAt 0).Valid := by decide
  ⟨hv,
    match IsDialogButtonEnabled_OK_reads_active_tab ((World.ofRun sample_shown).dialogAt 0) hv with
    | ⟨c, h1, h2, _⟩ => ⟨c, h1, h2⟩⟩

/-- Counterexample to C2: after `AcceptSpecificSource` the dialog's forced selection is
set and the active tab has no selection, yet `IsDialogButtonEnabled(OK)` is false. -/
theorem IsDialogButtonEnabled_OK_false_with_forced_selection :
    ((World.ofRun sample_forced).dialogAt 0).accepted_source_
        = some { type := TYPE_SCREEN, id := 1, audio_share := false } ∧
    (((World.ofRun sample_forced).dialogAt 0).GetSelectedController.toOption.map
        fun c => c.GetSelection) = some none ∧
    (((World.ofRun sample_forced).dialogAt 0).IsDialogButtonEnabled .DIALOG_BUTTON_OK).toOption
        = some false := by
  decide

/-- C3 (as amended): with the stored callback already cleared and a dialog still
referenced, `NotifyDialogResult` returns, posts nothing, drops the dialog reference
and tells the manager; with the dialog reference already cleared it goes through the
null `dialog_` and crashes. -/
theorem NotifyDialogResult_without_callback (w : World) (pk : DesktopMediaPickerViews)
    (source : DesktopMediaID) (hpk : w.picker = some pk) (hcb : pk.callback_ = none) :
    (pk.dialog_ = none →
      DesktopMediaPickerViews.NotifyDialogResult w source = .error Fault.null_dereference) ∧
    (∀ p d, pk.dialog_ = some p → w.dialogs p = some d →
      ∃ w1, DesktopMediaPickerViews.NotifyDialogResult w source = .ok w1 ∧
        w1.posted_tasks = w.posted_tasks ∧
        w1.picker = some { dialog_ := none, callback_ := none } ∧
        w1.dialogs p = some d.DetachParent ∧
        w1.manager_calls = w.manager_calls ++ [ManagerCall.OnHideDialog]) := by
  constructor
  · intro hd
    simp only [DesktopMediaPickerViews.NotifyDialogResult, hpk, hd]
    rfl
  · intro p d hd hlive
    refine ⟨_, NotifyDialogResult_eq w p d pk source hpk hd hlive, ?_, rfl, ?_, rfl⟩
    · simp [hcb]
    · simp [World.setDialog]

/-- Witness for C3 (as amended): `Show` with a null callback, then a result. -/
theorem NotifyDialogResult_without_callback_witness :
    (World.ofRun sample_shown_null).picker = some { dialog_ := some 0, callback_ := none } ∧
    ∃ w1, DesktopMediaPickerViews.NotifyDialogResult (World.ofRun sample_shown_null) W7 = .ok w1 ∧
      w1.posted_tasks = (World.ofRun sample_shown_null).posted_tasks ∧
      w1.picker = some { dialog_ := none, callback_ := none } :=
  have hpk : (World.ofRun sample_shown_null).picker
      = some { dialog_ := some 0, callback_ := none } := by decide
  have hd : (World.ofRun sample_shown_null).dialogs 0
      = some ((World.ofRun sample_shown_null).dialogAt 0) := by decide
  ⟨hpk,
    match (NotifyDialogResult_without_callback (World.ofRun sample_shown_null)
      { dialog_ := some 0, callback_ := none } W7 hpk rfl).2 0 _ rfl hd with
    | ⟨w1, h1, h2, h3, _⟩ => ⟨w1, h1, h2, h3⟩⟩

/-- Counterexample to C3: `Show`, then the dialog is closed, which delivers the first
result and clears `dialog_` and `callback_`; a second `NotifyDialogResult` crashes on
the null `dialog_`. -/
theorem second_NotifyDialogResult_faults :
    (sample_cancelled.toOption.map fun w => (w.picker, w.posted_tasks))
      = some (some { dialog_ := none, callback_ := none }, [(1, DesktopMediaID.null)]) ∧
    ((sample_cancelled >>= fun w =>
        DesktopMediaPickerViews.NotifyDialogResult w DesktopMediaID.null).toOption.map
          fun w => w.posted_tasks) = none ∧
    (match sample_cancelled >>= fun w =>
        DesktopMediaPickerViews.NotifyDialogResult w DesktopMediaID.null with
      | .error e => some e
      | .ok _ => none) = some Fault.null_dereference := by
  decide

/-- C4: in every open dialog state in which a selection exists, `Accept` returns true and
calls `NotifyDialogResult` once, with the resolved source (the forced one if set,
otherwise the active tab's) whose `audio_share` is true exactly when the checkbox
exists, is visible and is checked, the other fields unchanged; the stored callback is
posted that value. Confirming `W7` on the Window tab of a Screen and Window dialog
posts `W7` with audio false. -/
theorem Accept_notifies_resolved_source_with_audio_flag (w : World) (p : Nat)
    (d : DesktopMediaPickerDialogView) (pk : DesktopMediaPickerViews)
    (source0 : DesktopMediaID) (hopen : w.IsOpen p d pk)
    (hsel : d.source_optional = .ok (some source0)) :
    (d.accepted_source_ = some source0 ∨
      (d.accepted_source_ = none ∧
        ∃ c, d.GetSelectedController = .ok c ∧ c.GetSelection = some source0)) ∧
    (∃ w1 flag, DesktopMediaPickerDialogView.Accept w p = .ok (true, w1) ∧
      w1.notify_calls =
        w.notify_calls ++ [{ type := source0.type, id := source0.id, audio_share := flag }] ∧
      (∀ cb, pk.callback_ = some cb →
        w1.posted_tasks =
          w.posted_tasks ++ [(cb, { type := source0.type, id := source0.id, audio_share := flag })]) ∧
      (flag = true ↔
        ∃ cb, d.audio_share_checkbox_ = some cb ∧ cb.visible = true ∧ cb.checked = true)) ∧
    ((sample_picked >>= fun w => AcceptWindow w 0).toOption.map fun w => w.posted_tasks)
      = some [((1 : DoneCallback),
          ({ type := TYPE_WINDOW, id := 7, audio_share := false } : DesktopMediaID))] := by
  refine ⟨source_optional_cases d source0 hsel, ⟨_, d.audio_share,
    Accept_open_eq w p d pk source0 hopen hsel, rfl, ?_, audio_share_iff d⟩, by decide⟩
  intro cb hcb
  simp [hcb]

/-- Witness for C4: the dialog after the user switched to the Window tab and picked `W7`. -/
theorem Accept_notifies_resolved_source_with_audio_flag_witness :
    (World.ofRun sample_picked).IsOpen 0 ((World.ofRun sample_picked).dialogAt 0)
      { dialog_ := some 0, callback_ := some 1 } ∧
    ((World.ofRun sample_picked).dialogAt 0).source_optional = .ok (some W7) ∧
    ∃ w1 flag, DesktopMediaPickerDialogView.Accept (World.ofRun sample_picked) 0 = .ok (true, w1) ∧
      w1.notify_calls =
        (World.ofRun sample_picked).notify_calls ++
          [{ type := W7.type, id := W7.id, audio_share := flag }] :=
  have hopen : (World.ofRun sample_picked).IsOpen 0 ((World.ofRun sample_picked).dialogAt 0)
      { dialog_ := some 0, callback_ := some 1 } := by decide
  have hsel : ((World.ofRun sample_picked).dialogAt 0).source_optional = .ok (some W7) := by rfl
  ⟨hopen, hsel,
    match (Accept_notifies_resolved_source_with_audio_flag (World.ofRun sample_picked) 0
      ((World.ofRun sample_picked).dialogAt 0) { dialog_ := some 0, callback_ := some 1 } W7
      hopen hsel).2.1 with
    | ⟨w1, flag, h1, h2, _⟩ => ⟨w1, flag, h1, h2⟩⟩

/-- C5: for every source and every open dialog state, whatever the active tab and its
selection, `AcceptSpecificSource(source)` returns, stores the source as the forced
selection and calls `NotifyDialogResult` once, with that source whose `audio_share` is
set from the checkbox (exists, visible and checked); the stored callback is posted
that value. -/
theorem AcceptSpecificSource_resolves_to_forced_source (w : World) (p : Nat)
    (d : DesktopMediaPickerDialogView) (pk : DesktopMediaPickerViews)
    (source : DesktopMediaID) (hopen : w.IsOpen p d pk) :
    ∃ w1 flag, DesktopMediaPickerDialogView.AcceptSpecificSource w p source = .ok w1 ∧
      w1.notify_calls =
        w.notify_calls ++ [{ type := source.type, id := source.id, audio_share := flag }] ∧
      (∀ cb, pk.callback_ = some cb →
        w1.posted_tasks =
          w.posted_tasks ++ [(cb, { type := source.type, id := source.id, audio_share := flag })]) ∧
      (flag = true ↔
        ∃ cb, d.audio_share_checkbox_ = some cb ∧ cb.visible = true ∧ cb.checked = true) ∧
      w1.dialogs p =
        some { d with accepted_source_ := some source, parent_ := false, widget_closed := true } := by
  obtain ⟨w1, h1, h2, -, h4, -, h6⟩ := AcceptSpecificSource_open w p d pk source hopen
  refine ⟨w1, d.audio_share, h1, h4, ?_, audio_share_iff d, h2⟩
  intro cb hcb
  rw [h6]
  simp [hcb]

/-- Witness for C5: a collaborator forces `W7` while the Screen tab is active and nothing
is selected. -/
theorem AcceptSpecificSource_resolves_to_forced_source_witness :
    (World.ofRun sample_shown).IsOpen 0 ((World.ofRun sample_shown).dialogAt 0)
      { dialog_ := some 0, callback_ := some 1 } ∧
    ∃ w1 flag,
      DesktopMediaPickerDialogView.AcceptSpecificSource (World.ofRun sample_shown) 0 W7 = .ok w1 ∧
      w1.notify_calls =
        (World.ofRun sample_shown).notify_calls ++
          [{ type := W7.type, id := W7.id, audio_share := flag }] :=
  have hopen : (World.ofRun sample_shown).IsOpen 0 ((World.ofRun sample_shown).dialogAt 0)
      { dialog_ := some 0, callback_ := some 1 } := by decide
  ⟨hopen,
    match AcceptSpecificSource_resolves_to_forced_source (World.ofRun sample_shown) 0
      ((World.ofRun sample_shown).dialogAt 0) { dialog_ := some 0, callback_ := some 1 } W7
      hopen with
    | ⟨w1, flag, h1, h2, _⟩ => ⟨w1, flag, h1, h2⟩⟩

/-- C6: when the owner is destroyed while its dialog is alive, the destructor returns
having posted nothing, called `NotifyDialogResult` never and told the manager nothing;
the dialog is left with a null `parent_` and a closing window. `DetachParent` changes
`parent_` only. On a dialog with a null `parent_`, `Accept` returns true with the world
unchanged (or crashes for want of a selection) and `DeleteDelegate` deletes the dialog
with no call of `NotifyDialogResult`. -/
theorem destroy_detaches_and_delivers_nothing (w : World) (p : Nat)
    (d : DesktopMediaPickerDialogView) (pk : DesktopMediaPickerViews)
    (hpk : w.picker = some pk) (hd : pk.dialog_ = some p) (hlive : w.dialogs p = some d) :
    (∃ w1, DesktopMediaPickerViews.destroy w = .ok w1 ∧ w1.picker = none ∧
      w1.dialogs p = some { d with parent_ := false, widget_closed := true } ∧
      w1.posted_tasks = w.posted_tasks ∧ w1.notify_calls = w.notify_calls ∧
      w1.manager_calls = w.manager_calls) ∧
    d.DetachParent = { d with parent_ := false } ∧
    (∀ (w2 : World) (d2 : DesktopMediaPickerDialogView),
      w2.dialogs p = some d2 → d2.parent_ = false →
      DesktopMediaPickerDialogView.Accept w2 p =
        (match d2.source_optional with
         | .error e => .error e
         | .ok none => .error Fault.bad_optional_access
         | .ok (some _) => .ok (true, w2)) ∧
      ∃ w3, DesktopMediaPickerDialogView.DeleteDelegate w2 p = .ok w3 ∧
        w3.dialogs p = none ∧ w3.notify_calls = w2.notify_calls ∧
        w3.posted_tasks = w2.posted_tasks ∧ w3.manager_calls = w2.manager_calls) := by
  refine ⟨⟨_, destroy_open_eq w p d pk hpk hd hlive, rfl, ?_, rfl, rfl, rfl⟩, rfl, ?_⟩
  · simp [World.setDialog]
  · intro w2 d2 h2 hp2
    refine ⟨Accept_detached_eq w2 p d2 h2 hp2, _,
      DeleteDelegate_detached_eq w2 p d2 h2 hp2, ?_, rfl, rfl, rfl⟩
    simp [World.setDialog]

/-- Witness for C6: the owner is destroyed right after `Show`. -/
theorem destroy_detaches_and_delivers_nothing_witness :
    (World.ofRun sample_shown).picker = some { dialog_ := some 0, callback_ := some 1 } ∧
    (World.ofRun sample_shown).dialogs 0 = some ((World.ofRun sample_shown).dialogAt 0) ∧
    ∃ w1, DesktopMediaPickerViews.destroy (World.ofRun sample_shown) = .ok w1 ∧
      w1.picker = none ∧
      w1.dialogs 0 =
        some { (World.ofRun sample_shown).dialogAt 0 with parent_ := false, widget_closed := true } ∧
      w1.posted_tasks = (World.ofRun sample_shown).posted_tasks :=
  have hpk : (World.ofRun sample_shown).picker
      = some { dialog_ := some 0, callback_ := some 1 } := by decide
  have hlive : (World.ofRun sample_shown).dialogs 0
      = some ((World.ofRun sample_shown).dialogAt 0) := by decide
  ⟨hpk, hlive,
    match (destroy_detaches_and_delivers_nothing (World.ofRun sample_shown) 0
      ((World.ofRun sample_shown).dialogAt 0) { dialog_ := some 0, callback_ := some 1 }
      hpk rfl hlive).1 with
    | ⟨w1, h1, h2, h3, h4, _⟩ => ⟨w1, h1, h2, h3, h4⟩⟩

/-- C10 at its failing input: `Show`, then the owner is destroyed while the dialog is
open, then the dialog is deleted. The manager has heard `OnShowDialog` and never
`OnHideDialog`: the tracker still reports a picker open although no dialog is alive. -/
theorem owner_destroyed_leaves_tracker_open :
    (sample_owner_destroyed.toOption.map fun w =>
      (w.manager_calls, picker_open w.manager_calls, w.picker, w.dialogs 0, w.live_dialogs))
      = some ([ManagerCall.OnShowDialog], true, none, none, 0) := by
  decide

/-- Witness for C7: switching the dialog right after `Show` to its Window tab. -/
theorem TabSelectedAt_checkbox_visible_witness :
    ((World.ofRun sample_shown).dialogAt 0).Valid ∧
    ((World.ofRun sample_shown).dialogAt 0).audio_share_checkbox_
      = some { visible := true, checked := true } ∧
    1 < ((World.ofRun sample_shown).dialogAt 0).source_types_.length ∧
    ∃ d2 v,
      DesktopMediaPickerDialogView.TabSelectedAt sample_cfg
        ((World.ofRun sample_shown).dialogAt 0) 1 = .ok d2 ∧
      d2.audio_share_checkbox_ = some { visible := v, checked := true } ∧ v = false :=
  have hv : ((World.ofRun sample_shown).dialogAt 0).Valid := by decide
  have hcb : ((World.ofRun sample_shown).dialogAt 0).audio_share_checkbox_
      = some { visible := true, checked := true } := by decide
  have hi : 1 < ((World.ofRun sample_shown).dialogAt 0).source_types_.length := by decide
  ⟨hv, hcb, hi,
    match TabSelectedAt_checkbox_visible sample_cfg ((World.ofRun sample_shown).dialogAt 0)
      { visible := true, checked := true } 1 hv hcb hi with
    | ⟨_, d2, v, _, h2, _, h4, _, h6⟩ => ⟨d2, v, h2, h4, h6 (by decide)⟩⟩

/-- Witness for C8: a Screen list, a tab list and a Window list. -/
theorem create_one_tab_per_supported_list_witness :
    (sample_cfg.DCHECK_IS_ON = true →
      ∀ l ∈ [sample_screen_list, sample_tab_list, sample_window_list],
        l.media_list_type ≠ TYPE_NONE) ∧
    (∃ l ∈ [sample_screen_list, sample_tab_list, sample_window_list],
      l.media_list_type = TYPE_SCREEN ∨ l.media_list_type = TYPE_WINDOW) ∧
    ∃ d, DesktopMediaPickerDialogView.create sample_cfg sample_params
        [sample_screen_list, sample_tab_list, sample_window_list] sample_window_id = .ok d ∧
      d.source_types_ = [TYPE_SCREEN, TYPE_WINDOW] ∧
      d.list_controllers_.map (fun c => c.media_list) = [sample_screen_list, sample_window_list] ∧
      d.pane_.selected_tab_index = some 0 :=
  have h1 : sample_cfg.DCHECK_IS_ON = true →
      ∀ l ∈ [sample_screen_list, sample_tab_list, sample_window_list],
        l.media_list_type ≠ TYPE_NONE := by decide
  have h2 : ∃ l ∈ [sample_screen_list, sample_tab_list, sample_window_list],
      l.media_list_type = TYPE_SCREEN ∨ l.media_list_type = TYPE_WINDOW := by decide
  ⟨h1, h2,
    match create_one_tab_per_supported_list sample_cfg sample_params
      [sample_screen_list, sample_tab_list, sample_window_list] sample_window_id h1 h2 with
    | ⟨d, hd, ht, hc, _, _, _, _, hs⟩ => ⟨d, hd, ht, hc, hs⟩⟩

/-- Witness for C9: `SelectTab(TYPE_WINDOW)` on the dialog right after `Show`. -/
theorem SelectTab_selects_first_tab_of_category_witness :
    ((World.ofRun sample_shown).dialogAt 0).Valid ∧
    ((World.ofRun sample_shown).dialogAt 0).source_types_[1]? = some TYPE_WINDOW ∧
    ∃ d1, DesktopMediaPickerDialogView.SelectTab sample_cfg
        ((World.ofRun sample_shown).dialogAt 0) TYPE_WINDOW = .ok d1 ∧
      d1.pane_.selected_tab_index = some 1 :=
  have hv : ((World.ofRun sample_shown).dialogAt 0).Valid := by decide
  have h1 : ((World.ofRun sample_shown).dialogAt 0).source_types_[1]? = some TYPE_WINDOW := by
    decide
  have hmin : ∀ j : Nat, j < 1 →
      ((World.ofRun sample_shown).dialogAt 0).source_types_[j]? ≠ some TYPE_WINDOW := by
    decide
  ⟨hv, h1,
    match ((SelectTab_selects_first_tab_of_category sample_cfg
      ((World.ofRun sample_shown).dialogAt 0) TYPE_WINDOW hv).1 1 h1 hmin).2 with
    | ⟨d1, hd1, hs1, _⟩ => ⟨d1, hd1, hs1⟩⟩

theorem TabSelectedAt_Valid (cfg : BuildConfig) (d d1 : DesktopMediaPickerDialogView) (i : Nat)
    (hv : d.Valid) (hi : i < d.source_types_.length)
    (h : DesktopMediaPickerDialogView.TabSelectedAt cfg d i = .ok d1) : d1.Valid := by
  obtain ⟨d2, h2, hp, ht, hc, -, -⟩ := TabSelectedAt_ok cfg d i hv hi
  rw [h2] at h
  cases h
  exact ⟨by rw [ht]; exact hv.1, by rw [hc, ht]; exact hv.2.1, by rw [hp, ht]; exact hv.2.2.1,
    by rw [hp]; exact hv.2.2.2.1, by rw [hp, ht]; exact hv.2.2.2.2⟩

theorem userSelects_Valid (d d1 : DesktopMediaPickerDialogView) (i : Nat)
    (sel : Option DesktopMediaID) (hv : d.Valid)
    (h : d.userSelects i sel = .ok d1) : d1.Valid := by
  unfold DesktopMediaPickerDialogView.userSelects at h
  cases hc : d.list_controllers_[i]? with
  | none => simp [hc] at h
  | some c =>
    simp [hc, pure, Except.pure, DesktopMediaPickerDialogView.OnSelectionChanged,
      DesktopMediaPickerDialogView.DialogModelChanged] at h
    subst h
    exact ⟨hv.1, by simpa using hv.2.1, hv.2.2.1, hv.2.2.2.1, hv.2.2.2.2⟩

end Cef
